import Mathlib

/-!
Shallow embedding of the TalentHunt frontend session/authentication layer
(`src/frontend/src/lib/api.ts`: the `apiFetch` / `apiUpload` wrappers and the
`AuthProvider` context with its `login`, `register`, `logout` and hydration
operations), together with theorems settling the specification claims about it.

Network I/O is modelled by passing the response (or the rejection) of each
HTTP call as an explicit oracle argument; browser `localStorage` is modelled
as an `Option String` field of the world state.  JavaScript semantics that the
code relies on (truthiness tests, string conversion performed by the `Error`
constructor, property access on `null` throwing a `TypeError`) are embedded
explicitly.
-/

namespace TalentHunt

/-- A parsed JSON value, as produced by `res.json()`.  Numbers are modelled as
integers (no claim depends on non-integral numerics).  Object fields are the
key/value pairs of the parsed object; `JSON.parse` output has unique keys. -/
inductive Json where
  | jnull
  | jbool (b : Bool)
  | jnum (n : Int)
  | jstr (s : String)
  | jarr (elems : List Json)
  | jobj (fields : List (String × Json))
deriving Repr

/-- JavaScript truthiness of a parsed JSON value: `null`, `false`, `0` and the
empty string are falsy; every object and every array (even `[]`) is truthy. -/
def jsTruthy : Json → Bool
  | Json.jnull => false
  | Json.jbool b => b
  | Json.jnum n => n != 0
  | Json.jstr s => s != ""
  | Json.jarr _ => true
  | Json.jobj _ => true

mutual

/-- JavaScript `String(v)` on a parsed JSON value, as performed by
`new Error(message)` on a non-string argument: arrays join their elements with
commas (`String([]) = ""`, nulls render empty inside arrays), plain objects
render as `[object Object]`. -/
def jsRender : Json → String
  | Json.jnull => "null"
  | Json.jbool b => cond b "true" "false"
  | Json.jnum n => toString n
  | Json.jstr s => s
  | Json.jarr xs => jsRenderArr xs
  | Json.jobj _ => "[object Object]"

/-- Rendering of the elements of a JavaScript array: elements joined by `,`,
with `null` elements rendering as the empty string. -/
def jsRenderArr : List Json → String
  | [] => ""
  | x :: xs =>
    (match x with
     | Json.jnull => ""
     | y => jsRender y)
    ++ (match xs with
        | [] => ""
        | _ => "," ++ jsRenderArr xs)

end

/-- JavaScript property access `v["detail"]` on a parsed JSON value, for
values on which property access does not throw: yields the field on objects
and `none` (i.e. `undefined`) on every other non-null value. -/
def jlookup (key : String) : Json → Option Json
  | Json.jobj fields => List.lookup key fields
  | _ => none

/-- An HTTP response as observed through `fetch`: the status code, and the
parsed JSON body (`none` when the body is not valid JSON, in which case
`res.json()` rejects). -/
structure HttpResponse where
  status : Nat
  body : Option Json
deriving Repr

/-- `res.ok`: status in the inclusive range 200–299. -/
def respOk (r : HttpResponse) : Bool :=
  200 ≤ r.status && r.status < 300

/-- The possible settlements of an `apiFetch` / `apiUpload` promise. -/
inductive ApiOutcome where
  | ok (value : Json)
  /-- Rejection with `new Error (msg)` thrown by the non-2xx branch. -/
  | thrown (msg : String)
  /-- Rejection with the `TypeError` raised by evaluating `error.detail` when
  the decoded error body is JSON `null` (its message text is engine-defined,
  so it is not modelled). -/
  | typeError
  /-- Rejection of `res.json()` on the success path when the body is not
  valid JSON (a `SyntaxError` with engine-defined message). -/
  | decodeError
deriving Repr

/-- `throw new Error(error.detail || \x7bHTTP $\x7bres.status\x7d\x7d)` applied to the
decoded error body (`api.ts` lines 26 and 49): property access on `null`
throws a `TypeError`; otherwise a truthy `detail` field becomes the message
(via `String(...)` conversion) and anything else falls back to
`HTTP <status>`. -/
def throwFromBody (status : Nat) (error : Json) : ApiOutcome :=
  match error with
  | Json.jnull => ApiOutcome.typeError
  | e =>
    match jlookup "detail" e with
    | some d =>
      if jsTruthy d then ApiOutcome.thrown (jsRender d)
      else ApiOutcome.thrown ("HTTP " ++ toString status)
    | none => ApiOutcome.thrown ("HTTP " ++ toString status)

/-- The non-2xx branch shared by `apiFetch` and `apiUpload`
(`api.ts` lines 24–27 and 47–50):
`const error = await res.json().catch(() => (\x7b detail: fallback \x7d))` followed
by `throw new Error(error.detail || ...)`.  When the body is not valid JSON
the `catch` substitutes `\x7b detail: fallback \x7d`. -/
def httpError (fallback : String) (resp : HttpResponse) : ApiOutcome :=
  throwFromBody resp.status (resp.body.getD (Json.jobj [("detail", Json.jstr fallback)]))

/-- Response handling of `apiFetch` (`api.ts` lines 22–31), with the fetched
response as oracle: non-2xx throws via `httpError` with fallback
`Request failed`; a 204 returns the empty object without touching the body;
any other 2xx decodes the body as JSON and returns it unchanged. -/
def apiFetch (resp : HttpResponse) : ApiOutcome :=
  if respOk resp = false then httpError "Request failed" resp
  else if resp.status = 204 then ApiOutcome.ok (Json.jobj [])
  else
    match resp.body with
    | some j => ApiOutcome.ok j
    | none => ApiOutcome.decodeError

/-- Response handling of `apiUpload` (`api.ts` lines 41–51): non-2xx throws
via `httpError` with fallback `Upload failed`; every 2xx goes straight to
`res.json()` — there is no 204 special case. -/
def apiUpload (resp : HttpResponse) : ApiOutcome :=
  if respOk resp = false then httpError "Upload failed" resp
  else
    match resp.body with
    | some j => ApiOutcome.ok j
    | none => ApiOutcome.decodeError

/-- The `Authorization` header attached by a call, from the optional `token`
argument and the value stored under the `token` key of `localStorage`
(`api.ts` lines 15–20, browser context): `if (token)` is a truthiness test,
so an empty-string argument falls through to storage, and an empty-string
stored value attaches no header. -/
def authHeader : Option String → Option String → Option String
  | some t, stored =>
    if t = "" then
      match stored with
      | some s => if s = "" then none else some ("Bearer " ++ s)
      | none => none
    else some ("Bearer " ++ t)
  | none, stored =>
    match stored with
    | some s => if s = "" then none else some ("Bearer " ++ s)
    | none => none

/-- The `User` record returned by the backend (`api.ts`, auth provider,
interface `User`). -/
structure User where
  id : String
  company_id : String
  email : String
  name : String
  role : String
  created_at : String
deriving Repr, DecidableEq

/-- Successful response body of the login / register endpoints:
`\x7b access_token, user \x7d`. -/
structure AuthResponse where
  access_token : String
  user : User
deriving Repr, DecidableEq

/-- The session-relevant state of the application: the `token` key of
`localStorage` (durable storage), and the `AuthProvider` React state `user`,
`token`, `isLoading`. -/
structure World where
  storage : Option String
  user : Option User
  token : Option String
  isLoading : Bool
deriving Repr, DecidableEq

/-- The state at `AuthProvider` mount, before the hydration effect runs:
`useState(null)` for user and token, `useState(true)` for `isLoading`, with
whatever token `localStorage` already holds. -/
def initialWorld (s : Option String) : World :=
  { storage := s, user := none, token := none, isLoading := true }

/-- `login` of the `AuthProvider` (`api.ts` lines 172–177), with the result of
`authApi.login` as oracle.  Returns the post-call state together with the
propagated error, if any: a rejection of `await authApi.login` aborts the
function before any state statement runs, so the state is returned unchanged
and the error propagates to the caller; on success the token is written to
`localStorage` and both React fields are set from the response. -/
def login (w : World) (res : Except String AuthResponse) : World × Option String :=
  match res with
  | Except.error e => (w, some e)
  | Except.ok r =>
    ({ w with
        storage := some r.access_token
        token := some r.access_token
        user := some r.user }, none)

/-- `register` of the `AuthProvider` (`api.ts` lines 179–184): same contract
as `login`, with `authApi.register` as the oracle call. -/
def registerOp (w : World) (res : Except String AuthResponse) : World × Option String :=
  match res with
  | Except.error e => (w, some e)
  | Except.ok r =>
    ({ w with
        storage := some r.access_token
        token := some r.access_token
        user := some r.user }, none)

/-- `logout` of the `AuthProvider` (`api.ts` lines 186–190): synchronous, no
network call, total — removes the persisted token and nulls both React
fields. -/
def logout (w : World) : World :=
  { w with storage := none, token := none, user := none }

/-- The hydration effect of the `AuthProvider` (`api.ts` lines 159–170), with
the result of `authApi.me()` as oracle.  `if (stored)` is a truthiness test,
so an empty stored string is treated like an absent one.  When a token is
found it is set optimistically, then: on `me` success the user is set; on any
`me` failure the handler ignores the error value, removes the persisted token
and nulls the in-memory token.  Both branches end with `isLoading := false`,
and the function is total — no error escapes to a caller. -/
def hydrate (w : World) (meRes : Except String User) : World :=
  match w.storage with
  | some stored =>
    if stored = "" then { w with isLoading := false }
    else
      match meRes with
      | Except.ok u =>
        { w with token := some stored, user := some u, isLoading := false }
      | Except.error _ =>
        { w with storage := none, token := none, isLoading := false }
  | none => { w with isLoading := false }

/-- The session states reachable in an application lifetime: the mount state,
the transient state of hydration with the `me` check in flight (token set
optimistically, user not yet fetched), the state after the single hydration
run, and the results of any sequence of `login` / `register` / `logout`
operations from there (each auth call with an arbitrary oracle outcome). -/
inductive Reachable : World → Prop where
  | init : ∀ s, Reachable (initialWorld s)
  | midHydrate : ∀ s, s ≠ "" →
      Reachable { initialWorld (some s) with token := some s }
  | hydrated : ∀ s r, Reachable (hydrate (initialWorld s) r)
  | loginStep : ∀ w r, Reachable w → Reachable (login w r).1
  | registerStep : ∀ w r, Reachable w → Reachable (registerOp w r).1
  | logoutStep : ∀ w, Reachable w → Reachable (logout w)

/-- The context value consumed through `useAuth` (the data fields of
`AuthContextType`). -/
structure AuthContextValue where
  user : Option User
  token : Option String
  isLoading : Bool
deriving Repr, DecidableEq

/-- `useAuth` (`api.ts` lines 199–203), with the result of
`useContext(AuthContext)` as argument: the context default is `null`, so
outside an `AuthProvider` the lookup yields `none` and the hook throws
`useAuth must be inside AuthProvider`; inside a provider it returns the
context value unchanged. -/
def useAuth (ctx : Option AuthContextValue) : Except String AuthContextValue :=
  match ctx with
  | none => Except.error "useAuth must be inside AuthProvider"
  | some c => Except.ok c

/-- C1: a `Login(email, password)` call whose authentication request succeeds
with `\x7b access_token, user \x7d` ends the session Authenticated: the token is
written to durable storage, the in-memory token is set to `access_token`, the
in-memory user is set to the response user, the in-memory token equals the
persisted value, and no error is propagated. -/
theorem login_success_authenticates (w : World) (t : String) (u : User) :
    (login w (Except.ok ⟨t, u⟩)).1.storage = some t ∧
    (login w (Except.ok ⟨t, u⟩)).1.token = some t ∧
    (login w (Except.ok ⟨t, u⟩)).1.user = some u ∧
    (login w (Except.ok ⟨t, u⟩)).1.token = (login w (Except.ok ⟨t, u⟩)).1.storage ∧
    (login w (Except.ok ⟨t, u⟩)).2 = none :=
  ⟨rfl, rfl, rfl, rfl, rfl⟩

/-- C3: a hydration run that finds a (non-empty, i.e. truthy) persisted token
and whose `me` call fails — whatever the error — removes the persisted token,
resets the in-memory token to absent, and ends Ready (`isLoading = false`)
and Anonymous (user and token both absent).  `hydrate` is a total function
into `World`, so no error reaches any caller. -/
theorem hydrate_me_failure_anonymous (t e : String) (h : t ≠ "") :
    hydrate (initialWorld (some t)) (Except.error e) =
      { storage := none, user := none, token := none, isLoading := false } := by
  simp [hydrate, initialWorld, h]

/-- Witness for C3 at the concrete token `T1` and error `HTTP 401`. -/
theorem hydrate_me_failure_anonymous_witness :
    hydrate (initialWorld (some "T1")) (Except.error "HTTP 401") =
      { storage := none, user := none, token := none, isLoading := false } :=
  hydrate_me_failure_anonymous "T1" "HTTP 401" (by decide)

/-- C5: `logout` is a synchronous total function (no oracle argument: no
network call, cannot fail) that always ends with the persisted token removed
and both in-memory fields absent; applied to an already-Anonymous state it is
the identity. -/
theorem logout_clears_and_idempotent (w : World) :
    (logout w).storage = none ∧ (logout w).token = none ∧ (logout w).user = none ∧
    (w.storage = none → w.token = none → w.user = none → logout w = w) := by
  refine ⟨rfl, rfl, rfl, ?_⟩
  intro h1 h2 h3
  cases w
  simp_all [logout]

/-- Witness for C5 at the concrete Anonymous state. -/
theorem logout_clears_and_idempotent_witness :
    logout { storage := none, user := none, token := none, isLoading := false } =
      { storage := none, user := none, token := none, isLoading := false } :=
  (logout_clears_and_idempotent
      { storage := none, user := none, token := none, isLoading := false }).2.2.2
    rfl rfl rfl

/-- C4: in every reachable session state — through any sequence of the
operations, with any oracle outcomes — a present user implies a present
token; and the converse failure (token present, user absent) does occur in
the transient state where hydration has set the token optimistically and the
`me` check is still in flight. -/
theorem session_user_implies_token :
    (∀ w, Reachable w → w.user.isSome = true → w.token.isSome = true) ∧
    (∃ w, Reachable w ∧ w.token.isSome = true ∧ w.user.isSome = false) := by
  constructor
  · intro w h
    induction h with
    | init s => intro hu; simp [initialWorld] at hu
    | midHydrate s hs => intro hu; simp [initialWorld] at hu
    | hydrated s r =>
      intro hu
      match s with
      | none => simp [hydrate, initialWorld] at hu
      | some t =>
        by_cases ht : t = ""
        · simp [hydrate, initialWorld, ht] at hu
        · match r with
          | Except.ok u => simp [hydrate, initialWorld, ht]
          | Except.error e => simp [hydrate, initialWorld, ht] at hu
    | loginStep w r hw ih =>
      match r with
      | Except.ok a => intro _; simp [login]
      | Except.error e => intro hu; exact ih (by simpa [login] using hu)
    | registerStep w r hw ih =>
      match r with
      | Except.ok a => intro _; simp [registerOp]
      | Except.error e => intro hu; exact ih (by simpa [registerOp] using hu)
    | logoutStep w hw ih => intro hu; simp [logout] at hu
  · refine ⟨{ initialWorld (some "T1") with token := some "T1" }, ?_, rfl, rfl⟩
    exact Reachable.midHydrate "T1" (by decide)

/-- Witness for C4: the invariant applied at the concrete state reached by
hydrating with stored token `T1` and a successful `me` call. -/
theorem session_user_implies_token_witness :
    (hydrate (initialWorld (some "T1"))
        (Except.ok ⟨"1", "c1", "a@b.com", "Ann", "admin", "2024"⟩)).token.isSome = true :=
  session_user_implies_token.1 _ (Reachable.hydrated (some "T1") _) (by decide)

/-- C10: calling `useAuth` with no provider installed (context value `null`)
throws `useAuth must be inside AuthProvider` instead of returning a session
value. -/
theorem useAuth_requires_provider :
    useAuth none = Except.error "useAuth must be inside AuthProvider" := rfl

/-- The fallback message `HTTP <status>` is never the empty string. -/
theorem http_fallback_ne_empty (s : String) : "HTTP " ++ s ≠ "" := by
  intro h
  have h2 := congrArg String.data h
  rw [String.data_append] at h2
  simp at h2

/-- An unparseable error body throws the fixed fallback message. -/
theorem httpError_body_none (fb : String) (resp : HttpResponse)
    (h : resp.body = none) (hfb : fb ≠ "") :
    httpError fb resp = ApiOutcome.thrown fb := by
  simp [httpError, h, throwFromBody, jlookup, jsTruthy, jsRender, hfb]

/-- A body decoding to JSON `null` makes the `error.detail` access throw. -/
theorem httpError_null_body (fb : String) (resp : HttpResponse)
    (h : resp.body = some Json.jnull) :
    httpError fb resp = ApiOutcome.typeError := by
  simp [httpError, h, throwFromBody]

/-- A truthy `detail` field becomes the thrown message (via `String(...)`). -/
theorem httpError_detail_truthy (fb : String) (resp : HttpResponse) (j d : Json)
    (h : resp.body = some j) (hd : jlookup "detail" j = some d)
    (ht : jsTruthy d = true) :
    httpError fb resp = ApiOutcome.thrown (jsRender d) := by
  match j with
  | Json.jnull => simp [jlookup] at hd
  | Json.jbool b => simp [jlookup] at hd
  | Json.jnum n => simp [jlookup] at hd
  | Json.jstr s => simp [jlookup] at hd
  | Json.jarr xs => simp [jlookup] at hd
  | Json.jobj fields => simp [httpError, h, throwFromBody, hd, ht]

/-- A decodable non-null body with no truthy `detail` field throws
`HTTP <status>`. -/
theorem httpError_no_truthy_detail (fb : String) (resp : HttpResponse) (j : Json)
    (h : resp.body = some j) (hnull : j ≠ Json.jnull)
    (hd : ∀ d, jlookup "detail" j = some d → jsTruthy d = false) :
    httpError fb resp = ApiOutcome.thrown ("HTTP " ++ toString resp.status) := by
  match j with
  | Json.jnull => exact absurd rfl hnull
  | Json.jbool b => simp [httpError, h, throwFromBody, jlookup]
  | Json.jnum n => simp [httpError, h, throwFromBody, jlookup]
  | Json.jstr s => simp [httpError, h, throwFromBody, jlookup]
  | Json.jarr xs => simp [httpError, h, throwFromBody, jlookup]
  | Json.jobj fields =>
    match hlk : jlookup "detail" (Json.jobj fields) with
    | some d => simp [httpError, h, throwFromBody, hlk, hd d hlk]
    | none => simp [httpError, h, throwFromBody, hlk]

/-- Under the stated conditions, the message thrown by the non-2xx branch is
non-empty: the fallback is non-empty, every truthy `detail` field of the body
renders non-empty, and `HTTP <status>` is never empty. -/
theorem httpError_message_ne_empty (fb : String) (resp : HttpResponse)
    (hfb : fb ≠ "")
    (hren : ∀ j d, resp.body = some j → jlookup "detail" j = some d →
        jsTruthy d = true → jsRender d ≠ "") :
    ∀ m, httpError fb resp = ApiOutcome.thrown m → m ≠ "" := by
  intro m hm
  match hb : resp.body with
  | none =>
    rw [httpError_body_none fb resp hb hfb] at hm
    injection hm with h
    exact h ▸ hfb
  | some Json.jnull =>
    rw [httpError_null_body fb resp hb] at hm
    exact ApiOutcome.noConfusion hm
  | some (Json.jobj fields) =>
    match hlk : jlookup "detail" (Json.jobj fields) with
    | some d =>
      match htr : jsTruthy d with
      | true =>
        rw [httpError_detail_truthy fb resp (Json.jobj fields) d hb hlk htr] at hm
        injection hm with h
        exact h ▸ hren (Json.jobj fields) d hb hlk htr
      | false =>
        rw [httpError_no_truthy_detail fb resp (Json.jobj fields) hb (by intro h; cases h)
          (by intro e he; rw [hlk] at he; injection he with he; exact he ▸ htr)] at hm
        injection hm with h
        exact h ▸ http_fallback_ne_empty (toString resp.status)
    | none =>
      rw [httpError_no_truthy_detail fb resp (Json.jobj fields) hb (by intro h; cases h)
        (by intro e he; rw [hlk] at he; exact Option.noConfusion he)] at hm
      injection hm with h
      exact h ▸ http_fallback_ne_empty (toString resp.status)
  | some (Json.jbool b) =>
    rw [httpError_no_truthy_detail fb resp (Json.jbool b) hb (by intro h; cases h)
      (by intro e he; simp [jlookup] at he)] at hm
    injection hm with h
    exact h ▸ http_fallback_ne_empty (toString resp.status)
  | some (Json.jnum n) =>
    rw [httpError_no_truthy_detail fb resp (Json.jnum n) hb (by intro h; cases h)
      (by intro e he; simp [jlookup] at he)] at hm
    injection hm with h
    exact h ▸ http_fallback_ne_empty (toString resp.status)
  | some (Json.jstr s) =>
    rw [httpError_no_truthy_detail fb resp (Json.jstr s) hb (by intro h; cases h)
      (by intro e he; simp [jlookup] at he)] at hm
    injection hm with h
    exact h ▸ http_fallback_ne_empty (toString resp.status)
  | some (Json.jarr xs) =>
    rw [httpError_no_truthy_detail fb resp (Json.jarr xs) hb (by intro h; cases h)
      (by intro e he; simp [jlookup] at he)] at hm
    injection hm with h
    exact h ▸ http_fallback_ne_empty (toString resp.status)

/-- On a non-2xx response, `apiFetch` throws via the shared error branch with
fallback `Request failed`. -/
theorem apiFetch_not_ok (resp : HttpResponse) (hok : respOk resp = false) :
    apiFetch resp = httpError "Request failed" resp := by
  simp [apiFetch, hok]

/-- On a non-2xx response, `apiUpload` throws via the shared error branch with
fallback `Upload failed`. -/
theorem apiUpload_not_ok (resp : HttpResponse) (hok : respOk resp = false) :
    apiUpload resp = httpError "Upload failed" resp := by
  simp [apiUpload, hok]

/-- C2 counterexample: the claim asserts every propagated failure message is
non-empty, but a 422 response with body `\x7b"detail": []\x7d` has a truthy
`detail` field whose `String(...)` conversion is the empty string, so the
thrown `Error` carries the empty message, and a `login` failing with it
propagates the empty message (state unchanged). -/
theorem login_failure_empty_message :
    apiFetch { status := 422, body := some (Json.jobj [("detail", Json.jarr [])]) } =
      ApiOutcome.thrown "" ∧
    (login (initialWorld none) (Except.error "")).1 = initialWorld none ∧
    (login (initialWorld none) (Except.error "")).2 = some "" :=
  ⟨rfl, rfl, rfl⟩

/-- C2 (amended): a `login` or `register` whose request fails leaves the
session state exactly as it was — no partial update, from any prior state —
and propagates the error message verbatim; the message thrown for a non-2xx
HTTP response is non-empty provided any truthy `detail` field of the body
renders to a non-empty string (an empty-array `detail` renders empty). -/
theorem login_register_failure_atomic (w : World) (e m : String)
    (resp : HttpResponse) (hok : respOk resp = false)
    (hren : ∀ j d, resp.body = some j → jlookup "detail" j = some d →
        jsTruthy d = true → jsRender d ≠ "")
    (hm : apiFetch resp = ApiOutcome.thrown m ∨ apiUpload resp = ApiOutcome.thrown m) :
    (login w (Except.error e)).1 = w ∧
    (login w (Except.error e)).2 = some e ∧
    (registerOp w (Except.error e)).1 = w ∧
    (registerOp w (Except.error e)).2 = some e ∧
    m ≠ "" := by
  refine ⟨rfl, rfl, rfl, rfl, ?_⟩
  match hm with
  | Or.inl h =>
    rw [apiFetch_not_ok resp hok] at h
    exact httpError_message_ne_empty "Request failed" resp (by decide) hren m h
  | Or.inr h =>
    rw [apiUpload_not_ok resp hok] at h
    exact httpError_message_ne_empty "Upload failed" resp (by decide) hren m h

/-- Witness for C2 at a failed login against a 401 response with detail
`Invalid credentials`, from the fresh Anonymous state. -/
theorem login_register_failure_atomic_witness :
    (login (initialWorld none) (Except.error "Invalid credentials")).1 = initialWorld none ∧
    (login (initialWorld none) (Except.error "Invalid credentials")).2 =
      some "Invalid credentials" ∧
    (registerOp (initialWorld none) (Except.error "Invalid credentials")).1 = initialWorld none ∧
    (registerOp (initialWorld none) (Except.error "Invalid credentials")).2 =
      some "Invalid credentials" ∧
    "Invalid credentials" ≠ "" :=
  login_register_failure_atomic (initialWorld none) "Invalid credentials"
    "Invalid credentials"
    { status := 401, body := some (Json.jobj [("detail", Json.jstr "Invalid credentials")]) }
    rfl
    (by
      intro j d h1 h2 h3
      cases h1
      simp [jlookup] at h2
      cases h2
      decide)
    (Or.inl rfl)

/-- C8 counterexample: the claim asserts a decoded body with no truthy
`detail` field yields the message `HTTP <status>`, but a 500 response whose
body decodes to JSON `null` (which has no detail field) makes the
`error.detail` access itself throw a `TypeError`, so the rejection is not the
constructed `HTTP 500` error. -/
theorem null_body_type_error :
    apiFetch { status := 500, body := some Json.jnull } = ApiOutcome.typeError ∧
    apiFetch { status := 500, body := some Json.jnull } ≠ ApiOutcome.thrown "HTTP 500" :=
  ⟨rfl, fun h => ApiOutcome.noConfusion h⟩

/-- C8 (amended): on a non-2xx response, both wrappers fail with the string
rendering of a truthy `detail` field of the decoded body as message; an
undecodable body yields the wrapper's fixed fallback (`Request failed` /
`Upload failed`); a decodable non-null body with no truthy `detail` field
yields `HTTP <status>`; and a body decoding to JSON `null` instead raises a
`TypeError` from the property access. -/
theorem error_message_derivation (resp : HttpResponse) (j d : Json)
    (hok : respOk resp = false) :
    (resp.body = some j → jlookup "detail" j = some d → jsTruthy d = true →
        apiFetch resp = ApiOutcome.thrown (jsRender d) ∧
        apiUpload resp = ApiOutcome.thrown (jsRender d)) ∧
    (resp.body = none →
        apiFetch resp = ApiOutcome.thrown "Request failed" ∧
        apiUpload resp = ApiOutcome.thrown "Upload failed") ∧
    (resp.body = some j → j ≠ Json.jnull →
        (∀ e, jlookup "detail" j = some e → jsTruthy e = false) →
        apiFetch resp = ApiOutcome.thrown ("HTTP " ++ toString resp.status) ∧
        apiUpload resp = ApiOutcome.thrown ("HTTP " ++ toString resp.status)) ∧
    (resp.body = some Json.jnull →
        apiFetch resp = ApiOutcome.typeError ∧
        apiUpload resp = ApiOutcome.typeError) := by
  refine ⟨?_, ?_, ?_, ?_⟩
  · intro hb hd ht
    rw [apiFetch_not_ok resp hok, apiUpload_not_ok resp hok]
    exact ⟨httpError_detail_truthy _ resp j d hb hd ht,
      httpError_detail_truthy _ resp j d hb hd ht⟩
  · intro hb
    rw [apiFetch_not_ok resp hok, apiUpload_not_ok resp hok]
    exact ⟨httpError_body_none _ resp hb (by decide),
      httpError_body_none _ resp hb (by decide)⟩
  · intro hb hnull hd
    rw [apiFetch_not_ok resp hok, apiUpload_not_ok resp hok]
    exact ⟨httpError_no_truthy_detail _ resp j hb hnull hd,
      httpError_no_truthy_detail _ resp j hb hnull hd⟩
  · intro hb
    rw [apiFetch_not_ok resp hok, apiUpload_not_ok resp hok]
    exact ⟨httpError_null_body _ resp hb, httpError_null_body _ resp hb⟩

/-- Witness for C8 at a 404 response with detail `Not found`. -/
theorem error_message_derivation_witness :
    apiFetch { status := 404, body := some (Json.jobj [("detail", Json.jstr "Not found")]) } =
      ApiOutcome.thrown "Not found" :=
  ((error_message_derivation
      { status := 404, body := some (Json.jobj [("detail", Json.jstr "Not found")]) }
      (Json.jobj [("detail", Json.jstr "Not found")]) (Json.jstr "Not found")
      rfl).1 rfl rfl rfl).1

/-- C7 counterexample: the claim says every call — including uploads — turns
an HTTP 204 into an empty object, but `apiUpload` has no 204 special case: a
204 (empty body, not valid JSON) makes its `res.json()` reject, while
`apiFetch` does return the empty object. -/
theorem upload_204_not_empty_object :
    apiUpload { status := 204, body := none } = ApiOutcome.decodeError ∧
    apiUpload { status := 204, body := none } ≠ ApiOutcome.ok (Json.jobj []) ∧
    apiFetch { status := 204, body := none } = ApiOutcome.ok (Json.jobj []) :=
  ⟨rfl, fun h => ApiOutcome.noConfusion h, rfl⟩

/-- C7 (amended): a 2xx response with a JSON-decodable body is decoded and
returned unchanged by both wrappers; `apiFetch` turns a 204 into the empty
object without touching the body, while `apiUpload` always runs `res.json()`,
so a bodyless 204 rejects with a decode error there. -/
theorem success_json_passthrough (resp : HttpResponse) (j : Json)
    (hok : respOk resp = true) :
    (resp.status ≠ 204 → resp.body = some j → apiFetch resp = ApiOutcome.ok j) ∧
    (resp.status = 204 → apiFetch resp = ApiOutcome.ok (Json.jobj [])) ∧
    (resp.body = some j → apiUpload resp = ApiOutcome.ok j) ∧
    (resp.body = none → apiUpload resp = ApiOutcome.decodeError) := by
  refine ⟨?_, ?_, ?_, ?_⟩
  · intro h204 hb; simp [apiFetch, hok, h204, hb]
  · intro h204; simp [apiFetch, hok, h204]
  · intro hb; simp [apiUpload, hok, hb]
  · intro hb; simp [apiUpload, hok, hb]

/-- Witness for C7 at a 200 response with body `"x"` for `apiFetch`, and the
204 branch. -/
theorem success_json_passthrough_witness :
    apiFetch { status := 200, body := some (Json.jstr "x") } =
      ApiOutcome.ok (Json.jstr "x") :=
  (success_json_passthrough { status := 200, body := some (Json.jstr "x") }
      (Json.jstr "x") rfl).1 (by decide) rfl

/-- C6 counterexample: the claim says a supplied token argument is always
used, but `if (token)` is a truthiness test: supplying the empty-string token
falls through to the stored token (here `S`), so the request is authorized as
`Bearer S`, not with the supplied argument. -/
theorem empty_token_arg_not_used :
    authHeader (some "") (some "S") = some "Bearer S" ∧
    authHeader (some "") (some "S") ≠ some ("Bearer " ++ "") := by
  decide

/-- C6 (amended): a supplied non-empty token argument wins; with no (or an
empty) argument, a non-empty token read from durable storage at call time is
used — in particular the token persisted by a later successful login is
picked up by a subsequent argument-less call. -/
theorem token_resolution_order (t s : String) (stored : Option String)
    (w : World) (u : User) (ht : t ≠ "") (hs : s ≠ "") :
    authHeader (some t) stored = some ("Bearer " ++ t) ∧
    authHeader none (some s) = some ("Bearer " ++ s) ∧
    authHeader none ((login w (Except.ok ⟨s, u⟩)).1.storage) = some ("Bearer " ++ s) := by
  refine ⟨by simp [authHeader, ht], by simp [authHeader, hs], ?_⟩
  simp [login, authHeader, hs]

/-- Witness for C6 with argument `A` over stored `C`, stored-only token `B`,
and a login that persisted `B`. -/
theorem token_resolution_order_witness :
    authHeader (some "A") (some "C") = some ("Bearer " ++ "A") ∧
    authHeader none (some "B") = some ("Bearer " ++ "B") ∧
    authHeader none
      ((login (initialWorld none)
          (Except.ok ⟨"B", ⟨"1", "c1", "a@b.com", "Ann", "admin", "2024"⟩⟩)).1.storage) =
      some ("Bearer " ++ "B") :=
  token_resolution_order "A" "B" (some "C") (initialWorld none)
    ⟨"1", "c1", "a@b.com", "Ann", "admin", "2024"⟩ (by decide) (by decide)

/-- C9 counterexample: the claim quantifies over every successful login, but
a login whose response carries the empty access token reaches token `""` and
the user in memory, while the rehydration run treats the persisted `""` as
absent (`if (stored)` truthiness), never calls `me`, and ends Anonymous — not
the state held after the login. -/
theorem empty_token_roundtrip_fails :
    (login (initialWorld none)
        (Except.ok ⟨"", ⟨"1", "c1", "a@b.com", "Ann", "admin", "2024"⟩⟩)).1.token = some "" ∧
    (login (initialWorld none)
        (Except.ok ⟨"", ⟨"1", "c1", "a@b.com", "Ann", "admin", "2024"⟩⟩)).1.user =
      some ⟨"1", "c1", "a@b.com", "Ann", "admin", "2024"⟩ ∧
    (hydrate
        (initialWorld ((login (initialWorld none)
            (Except.ok ⟨"", ⟨"1", "c1", "a@b.com", "Ann", "admin", "2024"⟩⟩)).1.storage))
        (Except.ok ⟨"1", "c1", "a@b.com", "Ann", "admin", "2024"⟩)).token = none ∧
    (hydrate
        (initialWorld ((login (initialWorld none)
            (Except.ok ⟨"", ⟨"1", "c1", "a@b.com", "Ann", "admin", "2024"⟩⟩)).1.storage))
        (Except.ok ⟨"1", "c1", "a@b.com", "Ann", "admin", "2024"⟩)).user = none := by
  decide

/-- C9 (amended): for every successful login producing a non-empty token `t`
and user `u`, rehydrating against the storage it left behind, with `me`
returning the same `u`, reaches the same Authenticated state: same token,
same user, token `t`, user `u`, Ready. -/
theorem login_hydrate_roundtrip (w : World) (t : String) (u : User) (h : t ≠ "") :
    (hydrate (initialWorld ((login w (Except.ok ⟨t, u⟩)).1.storage)) (Except.ok u)).token =
      (login w (Except.ok ⟨t, u⟩)).1.token ∧
    (hydrate (initialWorld ((login w (Except.ok ⟨t, u⟩)).1.storage)) (Except.ok u)).user =
      (login w (Except.ok ⟨t, u⟩)).1.user ∧
    (hydrate (initialWorld ((login w (Except.ok ⟨t, u⟩)).1.storage)) (Except.ok u)).token =
      some t ∧
    (hydrate (initialWorld ((login w (Except.ok ⟨t, u⟩)).1.storage)) (Except.ok u)).user =
      some u ∧
    (hydrate (initialWorld ((login w (Except.ok ⟨t, u⟩)).1.storage)) (Except.ok u)).isLoading =
      false := by
  simp [login, hydrate, initialWorld, h]

/-- Witness for C9 at token `T1` and a concrete user. -/
theorem login_hydrate_roundtrip_witness :
    (hydrate
        (initialWorld ((login (initialWorld none)
            (Except.ok ⟨"T1", ⟨"1", "c1", "a@b.com", "Ann", "admin", "2024"⟩⟩)).1.storage))
        (Except.ok ⟨"1", "c1", "a@b.com", "Ann", "admin", "2024"⟩)).token =
      (login (initialWorld none)
          (Except.ok ⟨"T1", ⟨"1", "c1", "a@b.com", "Ann", "admin", "2024"⟩⟩)).1.token ∧
    (hydrate
        (initialWorld ((login (initialWorld none)
            (Except.ok ⟨"T1", ⟨"1", "c1", "a@b.com", "Ann", "admin", "2024"⟩⟩)).1.storage))
        (Except.ok ⟨"1", "c1", "a@b.com", "Ann", "admin", "2024"⟩)).user =
      (login (initialWorld none)
          (Except.ok ⟨"T1", ⟨"1", "c1", "a@b.com", "Ann", "admin", "2024"⟩⟩)).1.user ∧
    (hydrate
        (initialWorld ((login (initialWorld none)
            (Except.ok ⟨"T1", ⟨"1", "c1", "a@b.com", "Ann", "admin", "2024"⟩⟩)).1.storage))
        (Except.ok ⟨"1", "c1", "a@b.com", "Ann", "admin", "2024"⟩)).token = some "T1" ∧
    (hydrate
        (initialWorld ((login (initialWorld none)
            (Except.ok ⟨"T1", ⟨"1", "c1", "a@b.com", "Ann", "admin", "2024"⟩⟩)).1.storage))
        (Except.ok ⟨"1", "c1", "a@b.com", "Ann", "admin", "2024"⟩)).user =
      some ⟨"1", "c1", "a@b.com", "Ann", "admin", "2024"⟩ ∧
    (hydrate
        (initialWorld ((login (initialWorld none)
            (Except.ok ⟨"T1", ⟨"1", "c1", "a@b.com", "Ann", "admin", "2024"⟩⟩)).1.storage))
        (Except.ok ⟨"1", "c1", "a@b.com", "Ann", "admin", "2024"⟩)).isLoading = false :=
  login_hydrate_roundtrip (initialWorld none) "T1"
    ⟨"1", "c1", "a@b.com", "Ann", "admin", "2024"⟩ (by decide)

end TalentHunt
